import Mathlib

/-!
Verification of the TOE popper core (`toe_popper.py`): slot clock, work-window
gate, admission rule, idle debouncer, scheduler loop, and appointment committer.

Instants of local wall-clock time are modelled as natural numbers counting
microseconds since an arbitrary epoch (mirroring Python `datetime`, whose
resolution is the microsecond).  `datetime.replace` calls are modelled by
explicit floor-and-rebuild arithmetic on that counter.
-/

namespace TOE

def USEC_PER_SEC : Nat := 1000000

def USEC_PER_MIN : Nat := 60000000

def USEC_PER_HOUR : Nat := 3600000000

def USEC_PER_DAY : Nat := 86400000000

/-- Minute-of-hour of an instant, as Python `dt.minute`. -/
def minuteOfHour (t : Nat) : Nat := t / USEC_PER_MIN % 60

/-- Second-of-minute of an instant, as Python `dt.second`. -/
def secondOfMinute (t : Nat) : Nat := t / USEC_PER_SEC % 60

/-- Sub-second microseconds of an instant, as Python `dt.microsecond`. -/
def microOfSecond (t : Nat) : Nat := t % USEC_PER_SEC

/-- Python `dt.replace(minute=m, second=0, microsecond=0)`: keep the hour
prefix, substitute the minute, zero everything below. -/
def replaceMinute (t m : Nat) : Nat :=
  t / USEC_PER_HOUR * USEC_PER_HOUR + m * USEC_PER_MIN

/-- Python `dt.replace(second=0, microsecond=0)`: truncate to the whole minute. -/
def replaceSecMicro (t : Nat) : Nat := t / USEC_PER_MIN * USEC_PER_MIN

/-- Python `dt.replace(hour=h, minute=m, second=0, microsecond=0)`. -/
def replaceHourMinute (t h m : Nat) : Nat :=
  t / USEC_PER_DAY * USEC_PER_DAY + h * USEC_PER_HOUR + m * USEC_PER_MIN

/-- Embedding of `current_slot(slot_minutes)` from `toe_popper.py`, with the
`now_local()` reading passed explicitly.  For `slot_minutes = 30` the minute is
snapped to 0 or 30; otherwise it is floored by integer division. -/
def current_slot (now : Nat) (slot_minutes : Nat) : Nat × Nat :=
  let minute :=
    if slot_minutes == 30 then (if minuteOfHour now < 30 then 0 else 30)
    else minuteOfHour now / slot_minutes * slot_minutes
  let start := replaceMinute now minute
  (start, start + slot_minutes * USEC_PER_MIN)

/-- Embedding of `compute_slot_for_time` from `toe_popper.py`: exact-now mode
truncates `now` to the whole minute and adds the slot width; fake-time mode
substitutes the supplied hour and minute before quantizing; otherwise it
delegates to `current_slot`. -/
def compute_slot_for_time (slot_minutes : Nat) (now : Nat)
    (fake : Option (Nat × Nat)) (exact_now : Bool) : Nat × Nat :=
  if exact_now then
    let t := replaceSecMicro now
    (t, t + slot_minutes * USEC_PER_MIN)
  else
    match fake with
    | none => current_slot now slot_minutes
    | some (hh, mm) =>
      let t := replaceHourMinute now hh mm
      let minute := minuteOfHour t / slot_minutes * slot_minutes
      let start := replaceMinute t minute
      (start, start + slot_minutes * USEC_PER_MIN)

lemma minuteOfHour_lt (t : Nat) : minuteOfHour t < 60 := by
  unfold minuteOfHour
  exact Nat.mod_lt _ (by norm_num)

lemma minuteOfHour_replaceMinute (t m : Nat) (hm : m < 60) :
    minuteOfHour (replaceMinute t m) = m := by
  unfold minuteOfHour replaceMinute USEC_PER_HOUR USEC_PER_MIN
  omega

lemma secondOfMinute_replaceMinute (t m : Nat) :
    secondOfMinute (replaceMinute t m) = 0 := by
  unfold secondOfMinute replaceMinute USEC_PER_HOUR USEC_PER_MIN USEC_PER_SEC
  omega

lemma microOfSecond_replaceMinute (t m : Nat) :
    microOfSecond (replaceMinute t m) = 0 := by
  unfold microOfSecond replaceMinute USEC_PER_HOUR USEC_PER_MIN USEC_PER_SEC
  omega

/-- Claim C7: for every instant `now`, `current_slot` with `slot_minutes = 30`
returns a slot whose start minute-of-hour is 0 or 30, with seconds and
sub-seconds zeroed, and whose width is exactly 30 minutes; for any other
positive slot width the start minute is `now`'s minute-of-hour floored by
integer division to a multiple of `slot_minutes` and the slot is the half-open
interval from that floor of width `slot_minutes`. -/
theorem current_slot_quantizes (now : Nat) :
    ((minuteOfHour (current_slot now 30).1 = 0 ∨ minuteOfHour (current_slot now 30).1 = 30)
      ∧ secondOfMinute (current_slot now 30).1 = 0
      ∧ microOfSecond (current_slot now 30).1 = 0
      ∧ (current_slot now 30).2 = (current_slot now 30).1 + 30 * USEC_PER_MIN)
    ∧ ∀ m : Nat, 0 < m → m ≠ 30 →
      (minuteOfHour (current_slot now m).1 = minuteOfHour now / m * m
        ∧ secondOfMinute (current_slot now m).1 = 0
        ∧ microOfSecond (current_slot now m).1 = 0
        ∧ (current_slot now m).2 = (current_slot now m).1 + m * USEC_PER_MIN) := by
  constructor
  · unfold current_slot
    simp only [beq_self_eq_true, if_true]
    by_cases h : minuteOfHour now < 30
    · simp only [h, if_true]
      refine ⟨Or.inl (minuteOfHour_replaceMinute now 0 (by norm_num)),
        secondOfMinute_replaceMinute now 0, microOfSecond_replaceMinute now 0, trivial⟩
    · simp only [h, if_false]
      refine ⟨Or.inr (minuteOfHour_replaceMinute now 30 (by norm_num)),
        secondOfMinute_replaceMinute now 30, microOfSecond_replaceMinute now 30, trivial⟩
  · intro m hm hm30
    have hne : (m == 30) = false := by
      simp [beq_iff_eq]
      exact hm30
    unfold current_slot
    simp only [hne, if_false]
    have hfloor : minuteOfHour now / m * m < 60 :=
      lt_of_le_of_lt (Nat.div_mul_le_self _ _) (minuteOfHour_lt now)
    exact ⟨minuteOfHour_replaceMinute now _ hfloor,
      secondOfMinute_replaceMinute now _, microOfSecond_replaceMinute now _, trivial⟩

/-- Witness for C7: the general-width part of `current_slot_quantizes` applied
at `now` = 09:07:13 on day zero with `slot_minutes = 20` (floor minute 0). -/
theorem current_slot_quantizes_witness :
    minuteOfHour (current_slot (9 * USEC_PER_HOUR + 7 * USEC_PER_MIN + 13 * USEC_PER_SEC) 20).1
      = minuteOfHour (9 * USEC_PER_HOUR + 7 * USEC_PER_MIN + 13 * USEC_PER_SEC) / 20 * 20 :=
  ((current_slot_quantizes (9 * USEC_PER_HOUR + 7 * USEC_PER_MIN + 13 * USEC_PER_SEC)).2
    20 (by norm_num) (by norm_num)).1

/-- Counterexample to claim C8: at `now` = 00:00:30 (thirty seconds past the
epoch minute), exact-now mode does not return the unquantized interval
starting at `now`: it zeroes the seconds first. -/
theorem compute_slot_exact_now_not_unquantized :
    compute_slot_for_time 30 (30 * USEC_PER_SEC) none true
      ≠ (30 * USEC_PER_SEC, 30 * USEC_PER_SEC + 30 * USEC_PER_MIN) := by
  decide

/-- Claim C8 as amended: in exact-now mode, slot computation bypasses the
slot-grid quantization of the minute (the start keeps `now`'s minute-of-hour
rather than flooring it to a multiple of `slot_minutes`) but still zeroes
seconds and sub-seconds, returning the interval from `now` truncated to the
whole minute, of width `slot_minutes`. -/
theorem compute_slot_exact_now_spec (slot_minutes now : Nat) :
    (compute_slot_for_time slot_minutes now none true).1 = replaceSecMicro now
    ∧ minuteOfHour (compute_slot_for_time slot_minutes now none true).1 = minuteOfHour now
    ∧ secondOfMinute (compute_slot_for_time slot_minutes now none true).1 = 0
    ∧ microOfSecond (compute_slot_for_time slot_minutes now none true).1 = 0
    ∧ (compute_slot_for_time slot_minutes now none true).2
      = (compute_slot_for_time slot_minutes now none true).1 + slot_minutes * USEC_PER_MIN := by
  refine ⟨rfl, ?_, ?_, ?_, rfl⟩
  · unfold compute_slot_for_time replaceSecMicro minuteOfHour USEC_PER_MIN
    simp only [if_true]
    omega
  · unfold compute_slot_for_time replaceSecMicro secondOfMinute USEC_PER_MIN USEC_PER_SEC
    simp only [if_true]
    omega
  · unfold compute_slot_for_time replaceSecMicro microOfSecond USEC_PER_MIN USEC_PER_SEC
    simp only [if_true]
    omega

/-! ### Calendar items and the admission rule -/

/-- Raw Outlook calendar item as read by the popper: subject, start, end
(microsecond instants), the all-day flag, and an identity used to track which
occurrence a `Delete()` call lands on.  `IncludeRecurrences` is set on the
collection, so every element is a single occurrence, never a recurring series
definition. -/
structure CalItem where
  itemId : Nat
  Subject : String
  Start : Nat
  End : Nat
  AllDayEvent : Bool
deriving DecidableEq

/-- Event record built by `events_in_range`: subject (stripped), start, end. -/
structure EventInfo where
  Subject : String
  Start : Nat
  End : Nat
deriving DecidableEq

/-- Overlap-and-not-all-day restriction shared by `events_in_range` and
`find_focus_occurrences`: `[Start] < slot_end AND [End] > slot_start AND
[AllDayEvent] = False`. -/
def overlapsNonAllDay (slot_start slot_end : Nat) (it : CalItem) : Bool :=
  decide (it.Start < slot_end) && decide (it.End > slot_start) && !it.AllDayEvent

/-- Python `str.strip()` on the character list: drop whitespace from both
ends.  Defined structurally so concrete instances evaluate in the kernel. -/
def pyStrip (s : String) : String :=
  ⟨((s.data.dropWhile Char.isWhitespace).reverse.dropWhile Char.isWhitespace).reverse⟩

/-- Python `str.lower()` on the character list. -/
def pyLower (s : String) : String := ⟨s.data.map Char.toLower⟩

/-- Python substring containment `needle in hay`. -/
def pyContains (needle hay : List Char) : Bool :=
  match hay with
  | [] => needle.isEmpty
  | _ :: t => needle.isPrefixOf hay || pyContains needle t

/-- Embedding of `_is_focus_title`: strip the subject, then compare under the
configured mode string ("equals_ci", "contains_ci", anything else = exact). -/
def _is_focus_title (subject focus_title mode : String) : Bool :=
  let s := pyStrip subject
  let ft := focus_title
  if mode = "equals_ci" then pyLower s == pyLower ft
  else if mode = "contains_ci" then pyContains (pyLower ft).data (pyLower s).data
  else s == ft

/-- Embedding of `events_in_range`: restrict to overlapping non-all-day items
and project each to a record with a stripped subject. -/
def events_in_range (items : List CalItem) (start stop : Nat) : List EventInfo :=
  (items.filter (overlapsNonAllDay start stop)).map
    fun it => ⟨pyStrip it.Subject, it.Start, it.End⟩

/-- Embedding of `should_prompt`: prompt iff the slot is empty or holds exactly
one event whose subject matches the configured focus title. -/
def should_prompt (focus_title focus_match : String) (items : List CalItem)
    (slot_start slot_end : Nat) : Bool :=
  match events_in_range items slot_start slot_end with
  | [] => true
  | [ev] => _is_focus_title ev.Subject focus_title focus_match
  | _ => false

/-- Embedding of `find_focus_occurrences`: the overlapping non-all-day items
whose (raw) subject matches the focus title. -/
def find_focus_occurrences (items : List CalItem) (slot_start slot_end : Nat)
    (focus_title focus_match : String) : List CalItem :=
  (items.filter (overlapsNonAllDay slot_start slot_end)).filter
    fun it => _is_focus_title it.Subject focus_title focus_match

/-- Claim C1: the admission rule returns true on an empty overlap list; on a
singleton list it returns true exactly when the event's subject matches the
focus title under the configured mode; and it returns false whenever two or
more events overlap the slot, regardless of their content. -/
theorem should_prompt_admission (focus_title focus_match : String)
    (items : List CalItem) (slot_start slot_end : Nat) :
    (events_in_range items slot_start slot_end = [] →
      should_prompt focus_title focus_match items slot_start slot_end = true)
    ∧ (∀ ev, events_in_range items slot_start slot_end = [ev] →
      (should_prompt focus_title focus_match items slot_start slot_end = true
        ↔ _is_focus_title ev.Subject focus_title focus_match = true))
    ∧ (2 ≤ (events_in_range items slot_start slot_end).length →
      should_prompt focus_title focus_match items slot_start slot_end = false) := by
  unfold should_prompt
  refine ⟨fun h => by rw [h], fun ev h => by rw [h], fun h => ?_⟩
  match hevs : events_in_range items slot_start slot_end with
  | [] => rw [hevs] at h; simp at h
  | [ev] => rw [hevs] at h; simp at h
  | a :: b :: rest => rfl

/-- Witness for C1: the admission rule applied to a concrete calendar - a slot
containing a lone "Focus Sprint" occurrence admits the prompt. -/
theorem should_prompt_admission_witness :
    should_prompt "Focus Sprint" "equals_ci"
      [⟨1, "focus sprint", 0, 30 * USEC_PER_MIN, false⟩] 0 (30 * USEC_PER_MIN) = true :=
  ((should_prompt_admission "Focus Sprint" "equals_ci"
      [⟨1, "focus sprint", 0, 30 * USEC_PER_MIN, false⟩] 0 (30 * USEC_PER_MIN)).2.1
    ⟨"focus sprint", 0, 30 * USEC_PER_MIN⟩ (by decide)).mpr (by decide)

/-! ### Timezone-safe UTC conversion -/

/-- Timezone-aware datetime in the Python sense: a wall-clock reading together
with the UTC offset of its attached (fixed-offset) tzinfo, both in
microseconds.  The absolute instant it denotes is `wall - off`. -/
structure AwareDT where
  wall : Int
  off : Int
deriving DecidableEq

/-- Absolute UTC instant denoted by an aware datetime. -/
def instantOf (d : AwareDT) : Int := d.wall - d.off

/-- Python `aware.astimezone(timezone(off2))`: same instant, new offset. -/
def astimezoneFixed (d : AwareDT) (off2 : Int) : AwareDT :=
  ⟨instantOf d + off2, off2⟩

/-- Python `aware.astimezone(timezone.utc)`. -/
def astimezoneUTC (d : AwareDT) : AwareDT := astimezoneFixed d 0

/-- Embedding of `_local_tz()`: `datetime.now().astimezone().tzinfo` is a
fixed-offset timezone carrying the local UTC offset in effect at the instant
the call is made.  `offsetAt` is the host zone's offset-at-instant rule and
`tNow` the instant of the call. -/
def _local_tz (offsetAt : Int → Int) (tNow : Int) : Int := offsetAt tNow

/-- Embedding of `_to_utc_from_local_wall`: interpret a naive local wall-clock
reading under the offset resolved at the call instant, then convert to UTC. -/
def _to_utc_from_local_wall (offsetAt : Int → Int) (tNow : Int) (wall : Int) : AwareDT :=
  astimezoneUTC ⟨wall, _local_tz offsetAt tNow⟩

/-- Embedding of `_local_and_utc`: the aware local reading and its UTC image. -/
def _local_and_utc (offsetAt : Int → Int) (tNow : Int) (wall : Int) : AwareDT × AwareDT :=
  (⟨wall, _local_tz offsetAt tNow⟩, astimezoneUTC ⟨wall, _local_tz offsetAt tNow⟩)

/-- Claim C6: the committer's local-to-UTC conversion round-trips (converting
each slot boundary to UTC and back through the same offset-resolution rule
recovers the original wall-clock reading), and both boundaries are converted
with the offset resolved at the instant of the conversion call - a rule, not a
constant cached at startup - so when the two calls resolve the same offset (in
particular whenever a daylight-saving transition is merely pending rather than
interleaved between the calls) the slot duration is preserved exactly. -/
theorem utc_conversion_round_trips (offsetAt : Int → Int) (t1 t2 s e : Int)
    (hoff : offsetAt t1 = offsetAt t2) :
    (astimezoneFixed (_to_utc_from_local_wall offsetAt t1 s) (_local_tz offsetAt t1)).wall = s
    ∧ (astimezoneFixed (_to_utc_from_local_wall offsetAt t2 e) (_local_tz offsetAt t2)).wall = e
    ∧ instantOf (_to_utc_from_local_wall offsetAt t2 e)
        - instantOf (_to_utc_from_local_wall offsetAt t1 s) = e - s
    ∧ (_to_utc_from_local_wall offsetAt t2 e).wall
        - (_to_utc_from_local_wall offsetAt t1 s).wall = e - s := by
  unfold _to_utc_from_local_wall astimezoneUTC astimezoneFixed instantOf _local_tz
  simp only
  refine ⟨by ring, by ring, by rw [hoff]; ring, by rw [hoff]; ring⟩

/-- Witness for C6: a zone whose offset jumps from -5h to -4h at instant
1000 min (a pending daylight-saving transition), with both conversion calls
made at instant 0 and a slot of 30 wall-clock minutes; the round trip and the
exact duration follow from `utc_conversion_round_trips`. -/
theorem utc_conversion_round_trips_witness :
    (astimezoneFixed
        (_to_utc_from_local_wall
          (fun t => if t < 1000 * (USEC_PER_MIN : Int) then -300 * (USEC_PER_MIN : Int)
            else -240 * (USEC_PER_MIN : Int)) 0 (600 * (USEC_PER_MIN : Int)))
        (_local_tz
          (fun t => if t < 1000 * (USEC_PER_MIN : Int) then -300 * (USEC_PER_MIN : Int)
            else -240 * (USEC_PER_MIN : Int)) 0)).wall = 600 * (USEC_PER_MIN : Int)
    ∧ instantOf (_to_utc_from_local_wall
          (fun t => if t < 1000 * (USEC_PER_MIN : Int) then -300 * (USEC_PER_MIN : Int)
            else -240 * (USEC_PER_MIN : Int)) 0 (630 * (USEC_PER_MIN : Int)))
        - instantOf (_to_utc_from_local_wall
          (fun t => if t < 1000 * (USEC_PER_MIN : Int) then -300 * (USEC_PER_MIN : Int)
            else -240 * (USEC_PER_MIN : Int)) 0 (600 * (USEC_PER_MIN : Int)))
      = 30 * (USEC_PER_MIN : Int) := by
  have h := utc_conversion_round_trips
    (fun t => if t < 1000 * (USEC_PER_MIN : Int) then -300 * (USEC_PER_MIN : Int)
      else -240 * (USEC_PER_MIN : Int)) 0 0
    (600 * (USEC_PER_MIN : Int)) (630 * (USEC_PER_MIN : Int)) rfl
  refine ⟨h.1, ?_⟩
  have h3 := h.2.2.1
  rw [h3]
  norm_num [USEC_PER_MIN]

/-! ### Work window, modal results, and the committer -/

/-- Configuration fields consumed by the popper core, as read from the merged
config dict (`work_window`, `prompt_rules`, `ui`). -/
structure TOEConfig where
  ww_start : String
  ww_end : String
  slot_minutes : Nat
  focus_title : String
  focus_match : String
  remember_last : Bool
deriving DecidableEq

/-- Split a character list at each colon, as Python `s.split(":")`. -/
def splitOnColon (l : List Char) : List (List Char) :=
  match l with
  | [] => [[]]
  | c :: t =>
    let r := splitOnColon t
    if c = ':' then [] :: r
    else
      match r with
      | [] => [[c]]
      | h :: t2 => (c :: h) :: t2

/-- Python `int()` on a list of decimal digits. -/
def digitsToNat (l : List Char) : Nat :=
  l.foldl (fun acc c => acc * 10 + (c.toNat - 48)) 0

/-- Embedding of `parse_hhmm`: split on ":" and read the two integers. -/
def parse_hhmm (s : String) : Nat × Nat :=
  match splitOnColon s.data with
  | [h, m] => (digitsToNat h, digitsToNat m)
  | _ => (0, 0)

/-- Embedding of `within_work_window`: rebuild the window boundaries on the
same day as `t` and test `start <= t < end`. -/
def within_work_window (cfg : TOEConfig) (t : Nat) : Bool :=
  let sp := parse_hhmm cfg.ww_start
  let ep := parse_hhmm cfg.ww_end
  let s := replaceHourMinute t sp.1 sp.2
  let e := replaceHourMinute t ep.1 ep.2
  decide (s ≤ t) && decide (t < e)

/-- Result returned by the modal collaborator `run_modal_tk`: the dict
`{"action": "save"/"skip"/"snooze"}` with the save payload. -/
inductive PromptResult where
  | save (text category timecode : String)
  | skip
  | snooze
deriving DecidableEq

/-- Observable effects of one `prompt_once` call on its collaborators:
which occurrence ids `Delete()` was invoked on (and which of those raised),
whether `create_appointment` was called and whether it succeeded, the UTC pair
logged by `_preview_log` (when preview-only), the state-file write performed
by `save_state`, and whether the call blocked in a snooze sleep. -/
structure PromptEffects where
  modalShown : Bool
  deleteAttempts : List Nat
  deletesFailed : List Nat
  createAttempted : Bool
  createSucceeded : Bool
  previewUtc : Option (Int × Int)
  stateWritten : Option (String × String)
  snoozed : Bool
deriving DecidableEq

/-- Effects of a `prompt_once` call that returned before showing the modal. -/
def noPromptEffects : PromptEffects :=
  ⟨false, [], [], false, false, none, none, false⟩

/-- Embedding of `prompt_once` from `toe_popper.py`.  The work-window and
admission gates run unless `bypass` is set; the modal response `res` is an
input (the modal collaborator is external); `deleteFails` marks occurrence ids
whose `Delete()` raises and `createFails` whether `create_appointment` raises
(both exceptions are caught in the source); `offsetAt`/`tNow` feed the UTC
conversions exactly as in `_preview_log` and `create_appointment`. -/
def prompt_once (cfg : TOEConfig) (items : List CalItem)
    (slot_start slot_end : Nat) (bypass : Bool) (res : PromptResult)
    (preview_only : Bool) (deleteFails : Nat → Bool) (createFails : Bool)
    (offsetAt : Int → Int) (tNow : Int) : PromptEffects :=
  if !bypass && !within_work_window cfg slot_start then noPromptEffects
  else if !bypass && !should_prompt cfg.focus_title cfg.focus_match items slot_start slot_end then
    noPromptEffects
  else
    match res with
    | .save text category timecode =>
      let text := pyStrip text
      let tcode := pyStrip timecode
      let cat := pyStrip category
      let commit :=
        if text ≠ "" ∧ tcode ≠ "" then
          let focus := find_focus_occurrences items slot_start slot_end
            cfg.focus_title cfg.focus_match
          let dels := focus.map (fun it => it.itemId)
          let failed := dels.filter deleteFails
          if preview_only then
            (dels, failed, false, false,
              some (instantOf (_to_utc_from_local_wall offsetAt tNow (slot_start : Int)),
                instantOf (_to_utc_from_local_wall offsetAt tNow (slot_end : Int))))
          else
            (dels, failed, true, !createFails, none)
        else ([], [], false, false, none)
      { modalShown := true
        deleteAttempts := commit.1
        deletesFailed := commit.2.1
        createAttempted := commit.2.2.1
        createSucceeded := commit.2.2.2.1
        previewUtc := commit.2.2.2.2
        stateWritten := if cfg.remember_last then some (cat, tcode) else none
        snoozed := false }
    | .skip => { noPromptEffects with modalShown := true }
    | .snooze => { noPromptEffects with modalShown := true, snoozed := true }

/-- Default-style configuration used by concrete counterexamples/witnesses. -/
def cfgFS : TOEConfig :=
  ⟨"09:00", "17:00", 30, "Focus Sprint", "equals_ci", true⟩

/-- Two distinct "Focus Sprint" occurrences overlapping the 09:00-09:30 slot. -/
def twoFocusItems : List CalItem :=
  [⟨1, "Focus Sprint", 9 * USEC_PER_HOUR, 9 * USEC_PER_HOUR + 30 * USEC_PER_MIN, false⟩,
   ⟨2, "Focus Sprint", 9 * USEC_PER_HOUR + 10 * USEC_PER_MIN,
     9 * USEC_PER_HOUR + 20 * USEC_PER_MIN, false⟩]

/-- Counterexample to claim C2: with two focus occurrences in the slot (the
admission gate bypassed, as `--force-bypass` permits), a Save result invokes
`Delete()` on both occurrences - the committer does not delete at most one. -/
theorem save_deletes_two_occurrences :
    (prompt_once cfgFS twoFocusItems (9 * USEC_PER_HOUR)
        (9 * USEC_PER_HOUR + 30 * USEC_PER_MIN) true (.save "work" "Dev" "T-1")
        false (fun _ => false) false (fun _ => 0) 0).deleteAttempts = [1, 2] := by
  decide

/-- Claim C2 as amended: on a Save result the committer deletes exactly the
occurrences in the slot matching `focus_title` under `focus_match` (each a
single occurrence, never a recurring series definition) - at most one whenever
the admission rule gated the prompt (no bypass), but every matching occurrence
under bypass; a deletion failure is logged, not fatal, and creation proceeds
regardless of which deletions fail. -/
theorem save_deletes_focus_occurrences (cfg : TOEConfig) (items : List CalItem)
    (slot_start slot_end : Nat) (bypass preview_only : Bool)
    (deleteFails : Nat → Bool) (createFails : Bool)
    (offsetAt : Int → Int) (tNow : Int) (text category timecode : String)
    (htext : pyStrip text ≠ "") (htcode : pyStrip timecode ≠ "")
    (hshown : (prompt_once cfg items slot_start slot_end bypass
      (.save text category timecode) preview_only deleteFails createFails
      offsetAt tNow).modalShown = true) :
    (prompt_once cfg items slot_start slot_end bypass (.save text category timecode)
        preview_only deleteFails createFails offsetAt tNow).deleteAttempts
      = (find_focus_occurrences items slot_start slot_end
          cfg.focus_title cfg.focus_match).map (fun it => it.itemId)
    ∧ (bypass = false →
        (prompt_once cfg items slot_start slot_end bypass (.save text category timecode)
          preview_only deleteFails createFails offsetAt tNow).deleteAttempts.length ≤ 1)
    ∧ (preview_only = false →
        (prompt_once cfg items slot_start slot_end bypass (.save text category timecode)
          preview_only deleteFails createFails offsetAt tNow).createAttempted = true) := by
  have hgate1 : ¬(!bypass && !within_work_window cfg slot_start) = true := by
    intro hcontra
    unfold prompt_once at hshown
    rw [if_pos hcontra] at hshown
    exact Bool.false_ne_true hshown
  have hgate2 : ¬(!bypass && !should_prompt cfg.focus_title cfg.focus_match items
      slot_start slot_end) = true := by
    intro hcontra
    unfold prompt_once at hshown
    rw [if_neg hgate1, if_pos hcontra] at hshown
    exact Bool.false_ne_true hshown
  have hcond : (pyStrip text ≠ "" ∧ pyStrip timecode ≠ "") := ⟨htext, htcode⟩
  refine ⟨?_, ?_, ?_⟩
  · unfold prompt_once
    rw [if_neg hgate1, if_neg hgate2]
    simp only [if_pos hcond]
    by_cases hp : preview_only <;> simp [hp]
  · intro hby
    unfold prompt_once
    rw [if_neg hgate1, if_neg hgate2]
    simp only [if_pos hcond]
    have hsp : should_prompt cfg.focus_title cfg.focus_match items slot_start slot_end = true := by
      rcases Bool.eq_false_or_eq_true
          (should_prompt cfg.focus_title cfg.focus_match items slot_start slot_end) with ht | hf
      · exact ht
      · exact absurd (by rw [hby, hf]; rfl) hgate2
    have hlen : (find_focus_occurrences items slot_start slot_end
        cfg.focus_title cfg.focus_match).length ≤ 1 := by
      unfold find_focus_occurrences
      unfold should_prompt events_in_range at hsp
      rcases hL : items.filter (overlapsNonAllDay slot_start slot_end) with _ | ⟨a, _ | ⟨b, rest⟩⟩
      · simp
      · exact le_trans (List.length_filter_le _ _) (by simp)
      · rw [hL] at hsp
        simp [List.map_cons] at hsp
    by_cases hp : preview_only <;>
      simpa [hp] using hlen
  · intro hp
    unfold prompt_once
    rw [if_neg hgate1, if_neg hgate2]
    simp [if_pos hcond, hp]

/-- Witness for C2 (amended): `save_deletes_focus_occurrences` applied to the
bypassed two-occurrence calendar; the committer attempts exactly the two
matching occurrence deletions and still calls creation. -/
theorem save_deletes_focus_occurrences_witness :
    (prompt_once cfgFS twoFocusItems (9 * USEC_PER_HOUR)
        (9 * USEC_PER_HOUR + 30 * USEC_PER_MIN) true (.save "work" "Dev" "T-1")
        false (fun _ => false) false (fun _ => 0) 0).deleteAttempts
      = (find_focus_occurrences twoFocusItems (9 * USEC_PER_HOUR)
          (9 * USEC_PER_HOUR + 30 * USEC_PER_MIN) "Focus Sprint" "equals_ci").map
            (fun it => it.itemId) :=
  (save_deletes_focus_occurrences cfgFS twoFocusItems (9 * USEC_PER_HOUR)
    (9 * USEC_PER_HOUR + 30 * USEC_PER_MIN) true false (fun _ => false) false
    (fun _ => 0) 0 "work" "Dev" "T-1" (by decide) (by decide) (by decide)).1

/-- One "Focus Sprint" occurrence overlapping the 09:00-09:30 slot. -/
def oneFocusItem : List CalItem :=
  [⟨7, "Focus Sprint", 9 * USEC_PER_HOUR, 9 * USEC_PER_HOUR + 30 * USEC_PER_MIN, false⟩]

/-- Counterexample to claim C3: in preview-only mode a Save result still
deletes a calendar item - the matching focus occurrence is deleted (its
`Delete()` is invoked) even though creation is suppressed, because the
deletion step precedes the preview check in `prompt_once`. -/
theorem preview_save_still_deletes :
    (prompt_once cfgFS oneFocusItem (9 * USEC_PER_HOUR)
        (9 * USEC_PER_HOUR + 30 * USEC_PER_MIN) false (.save "work" "Dev" "T-1")
        true (fun _ => false) false (fun _ => 0) 0).deleteAttempts = [7]
    ∧ (prompt_once cfgFS oneFocusItem (9 * USEC_PER_HOUR)
        (9 * USEC_PER_HOUR + 30 * USEC_PER_MIN) false (.save "work" "Dev" "T-1")
        true (fun _ => false) false (fun _ => 0) 0).createAttempted = false := by
  constructor
  · decide
  · decide

/-- Claim C3 as amended: in preview-only (no-write) mode, a Save result never
calls the creation collaborator, and the UTC computation for the would-be
entry is performed and logged (the logged pair is exactly the committer's
local-wall-to-UTC conversion of both slot boundaries); however, matching focus
occurrences in the slot are still deleted, so preview mode is write-free only
for creation, not for deletion. -/
theorem preview_save_no_create (cfg : TOEConfig) (items : List CalItem)
    (slot_start slot_end : Nat) (bypass : Bool)
    (deleteFails : Nat → Bool) (createFails : Bool)
    (offsetAt : Int → Int) (tNow : Int) (text category timecode : String)
    (htext : pyStrip text ≠ "") (htcode : pyStrip timecode ≠ "")
    (hshown : (prompt_once cfg items slot_start slot_end bypass
      (.save text category timecode) true deleteFails createFails
      offsetAt tNow).modalShown = true) :
    (prompt_once cfg items slot_start slot_end bypass (.save text category timecode)
        true deleteFails createFails offsetAt tNow).createAttempted = false
    ∧ (prompt_once cfg items slot_start slot_end bypass (.save text category timecode)
        true deleteFails createFails offsetAt tNow).previewUtc
      = some (instantOf (_to_utc_from_local_wall offsetAt tNow (slot_start : Int)),
          instantOf (_to_utc_from_local_wall offsetAt tNow (slot_end : Int)))
    ∧ (prompt_once cfg items slot_start slot_end bypass (.save text category timecode)
        true deleteFails createFails offsetAt tNow).deleteAttempts
      = (find_focus_occurrences items slot_start slot_end
          cfg.focus_title cfg.focus_match).map (fun it => it.itemId) := by
  have hgate1 : ¬(!bypass && !within_work_window cfg slot_start) = true := by
    intro hcontra
    unfold prompt_once at hshown
    rw [if_pos hcontra] at hshown
    exact Bool.false_ne_true hshown
  have hgate2 : ¬(!bypass && !should_prompt cfg.focus_title cfg.focus_match items
      slot_start slot_end) = true := by
    intro hcontra
    unfold prompt_once at hshown
    rw [if_neg hgate1, if_pos hcontra] at hshown
    exact Bool.false_ne_true hshown
  have hcond : (pyStrip text ≠ "" ∧ pyStrip timecode ≠ "") := ⟨htext, htcode⟩
  unfold prompt_once
  rw [if_neg hgate1, if_neg hgate2]
  simp [if_pos hcond]

/-- Witness for C3 (amended): `preview_save_no_create` applied to the
one-occurrence calendar in preview mode - creation is not attempted. -/
theorem preview_save_no_create_witness :
    (prompt_once cfgFS oneFocusItem (9 * USEC_PER_HOUR)
        (9 * USEC_PER_HOUR + 30 * USEC_PER_MIN) false (.save "work" "Dev" "T-1")
        true (fun _ => false) false (fun _ => 0) 0).createAttempted = false :=
  (preview_save_no_create cfgFS oneFocusItem (9 * USEC_PER_HOUR)
    (9 * USEC_PER_HOUR + 30 * USEC_PER_MIN) false (fun _ => false) false
    (fun _ => 0) 0 "work" "Dev" "T-1" (by decide) (by decide) (by decide)).1

/-- Claim C10: whenever the modal returns Save and `remember_last` is enabled,
the state file is written with the stripped category and timecode - regardless
of whether the calendar create or delete collaborator fails and regardless of
preview-only suppressing creation - and Skip or Snooze results never write the
state file. -/
theorem save_state_write_policy (cfg : TOEConfig) (items : List CalItem)
    (slot_start slot_end : Nat) (bypass preview_only : Bool)
    (deleteFails : Nat → Bool) (createFails : Bool)
    (offsetAt : Int → Int) (tNow : Int) :
    (∀ text category timecode : String,
      (prompt_once cfg items slot_start slot_end bypass (.save text category timecode)
        preview_only deleteFails createFails offsetAt tNow).modalShown = true →
      cfg.remember_last = true →
      (prompt_once cfg items slot_start slot_end bypass (.save text category timecode)
        preview_only deleteFails createFails offsetAt tNow).stateWritten
        = some (pyStrip category, pyStrip timecode))
    ∧ (prompt_once cfg items slot_start slot_end bypass .skip
        preview_only deleteFails createFails offsetAt tNow).stateWritten = none
    ∧ (prompt_once cfg items slot_start slot_end bypass .snooze
        preview_only deleteFails createFails offsetAt tNow).stateWritten = none := by
  refine ⟨?_, ?_, ?_⟩
  · intro text category timecode hshown hrem
    have hgate1 : ¬(!bypass && !within_work_window cfg slot_start) = true := by
      intro hcontra
      unfold prompt_once at hshown
      rw [if_pos hcontra] at hshown
      exact Bool.false_ne_true hshown
    have hgate2 : ¬(!bypass && !should_prompt cfg.focus_title cfg.focus_match items
        slot_start slot_end) = true := by
      intro hcontra
      unfold prompt_once at hshown
      rw [if_neg hgate1, if_pos hcontra] at hshown
      exact Bool.false_ne_true hshown
    unfold prompt_once
    rw [if_neg hgate1, if_neg hgate2]
    simp [hrem]
  · unfold prompt_once
    rcases Bool.eq_false_or_eq_true (!bypass && !within_work_window cfg slot_start) with h1 | h1
    · rw [if_pos h1]
      rfl
    · rw [if_neg (by simp [h1])]
      rcases Bool.eq_false_or_eq_true (!bypass && !should_prompt cfg.focus_title
          cfg.focus_match items slot_start slot_end) with h2 | h2
      · rw [if_pos h2]
        rfl
      · rw [if_neg (by simp [h2])]
        rfl
  · unfold prompt_once
    rcases Bool.eq_false_or_eq_true (!bypass && !within_work_window cfg slot_start) with h1 | h1
    · rw [if_pos h1]
      rfl
    · rw [if_neg (by simp [h1])]
      rcases Bool.eq_false_or_eq_true (!bypass && !should_prompt cfg.focus_title
          cfg.focus_match items slot_start slot_end) with h2 | h2
      · rw [if_pos h2]
        rfl
      · rw [if_neg (by simp [h2])]
        rfl

/-- Witness for C10: `save_state_write_policy` at a concrete calendar with a
failing create collaborator in preview-off mode - the state file is still
written with the stripped category and timecode. -/
theorem save_state_write_policy_witness :
    (prompt_once cfgFS oneFocusItem (9 * USEC_PER_HOUR)
        (9 * USEC_PER_HOUR + 30 * USEC_PER_MIN) false (.save "work" " Dev " "T-1")
        false (fun _ => true) true (fun _ => 0) 0).stateWritten
      = some (pyStrip " Dev ", pyStrip "T-1") :=
  (save_state_write_policy cfgFS oneFocusItem (9 * USEC_PER_HOUR)
      (9 * USEC_PER_HOUR + 30 * USEC_PER_MIN) false false (fun _ => true) true
      (fun _ => 0) 0).1 "work" " Dev " "T-1" (by decide) (by decide)

/-! ### Idle debouncer and scheduler loop -/

/-- Idle threshold from the source: consider the user away if more than 60
seconds since last input. -/
def IDLE_THRESHOLD_SEC : Nat := 60

/-- Embedding of the idle/resume debounce block of `main`'s loop body
(the `idle > IDLE_THRESHOLD_SEC` / `was_idle` branch): given the debouncer
flag, the dedup key, the current slot key and the idle sample, return the new
flag, the new dedup key, and whether a resume prompt attempt fires. -/
def debounce (was_idle : Bool) (lastKey : Option Nat) (slotKey : Nat)
    (idle : Nat) : Bool × Option Nat × Bool :=
  if idle > IDLE_THRESHOLD_SEC then (true, lastKey, false)
  else if was_idle then
    if lastKey != some slotKey then (false, some slotKey, true)
    else (false, lastKey, false)
  else (was_idle, lastKey, false)

/-- One poll tick's inputs, abstracted from the loop's `now_local()` and
`get_idle_seconds()` readings: whether `now` is inside the work window, the
slot key of `current_slot(now)`, `now.second`, and the idle sample. -/
structure Tick where
  inWindow : Bool
  slotKey : Nat
  second : Nat
  idle : Nat
deriving DecidableEq

/-- Scheduler loop state carried across poll ticks: `last_slot_key_prompted`
and `was_idle`. -/
structure LoopState where
  lastKey : Option Nat
  was_idle : Bool
deriving DecidableEq

/-- Kind of prompt attempt issued by the loop body. -/
inductive TriggerKind where
  | boundary
  | resume
deriving DecidableEq

/-- Prompt attempt record: which trigger fired and for which slot key. -/
structure Attempt where
  kind : TriggerKind
  key : Nat
deriving DecidableEq

/-- Embedding of one iteration of `main`'s scheduler loop body: outside the
work window nothing happens (no idle tracking either); inside, the boundary
trigger fires when the slot key is new and the tick is within the first five
seconds of the slot, then the idle debouncer may fire a resume attempt. -/
def loopStep (st : LoopState) (t : Tick) : LoopState × List Attempt :=
  if !t.inWindow then (st, [])
  else
    let bFire := st.lastKey != some t.slotKey && decide (t.second < 5)
    let lk1 := if bFire then some t.slotKey else st.lastKey
    let d := debounce st.was_idle lk1 t.slotKey t.idle
    (⟨d.2.1, d.1⟩,
      (if bFire then [⟨.boundary, t.slotKey⟩] else [])
        ++ (if d.2.2 then [⟨.resume, t.slotKey⟩] else []))

/-- Run the scheduler loop body over a list of ticks, collecting every prompt
attempt in order. -/
def runLoop (st : LoopState) : List Tick → LoopState × List Attempt
  | [] => (st, [])
  | t :: ts =>
    let r1 := loopStep st t
    let r2 := runLoop r1.1 ts
    (r2.1, r1.2 ++ r2.2)

/-- Number of prompt attempts for a given slot key. -/
def countKey (k : Nat) (l : List Attempt) : Nat :=
  l.countP (fun a => a.key == k)

/-- Count of resume signals fired by the debouncer over a run of
(slot key, idle sample) pairs. -/
def debounceRun (was_idle : Bool) (lastKey : Option Nat) :
    List (Nat × Nat) → Nat
  | [] => 0
  | p :: rest =>
    let d := debounce was_idle lastKey p.1 p.2
    (if d.2.2 then 1 else 0) + debounceRun d.1 d.2.1 rest

lemma debounce_not_idle_no_resume (lk : Option Nat) (key idle : Nat)
    (h : idle ≤ IDLE_THRESHOLD_SEC) :
    debounce false lk key idle = (false, lk, false) := by
  unfold debounce
  rw [if_neg (by omega)]
  simp

lemma debounceRun_false (l : List (Nat × Nat)) (lk : Option Nat)
    (h : ∀ p ∈ l, p.2 ≤ IDLE_THRESHOLD_SEC) :
    debounceRun false lk l = 0 := by
  induction l generalizing lk with
  | nil => rfl
  | cons p rest ih =>
    have hp := h p (List.mem_cons_self p rest)
    unfold debounceRun
    rw [debounce_not_idle_no_resume lk p.1 p.2 hp]
    simpa using ih lk (fun q hq => h q (List.mem_cons_of_mem p hq))

/-- Claim C5: the idle debouncer signals at most one resume event per
idle-to-active transition.  A tick with the idle sample above the 60-second
threshold sets `was_idle` and takes no other action (dedup key unchanged, no
resume); a tick at or below the threshold while `was_idle` holds clears
`was_idle` and fires a resume attempt exactly when the current slot has not
already been prompted, so a resume landing in an already-prompted slot
produces no prompt; and over any run of active ticks (all samples at or below
the threshold) at most one resume signal fires. -/
theorem debounce_resume_policy :
    (∀ (wi : Bool) (lk : Option Nat) (key idle : Nat),
      idle > IDLE_THRESHOLD_SEC → debounce wi lk key idle = (true, lk, false))
    ∧ (∀ (lk : Option Nat) (key idle : Nat), idle ≤ IDLE_THRESHOLD_SEC →
        lk ≠ some key → debounce true lk key idle = (false, some key, true))
    ∧ (∀ (key idle : Nat), idle ≤ IDLE_THRESHOLD_SEC →
        debounce true (some key) key idle = (false, some key, false))
    ∧ (∀ (wi : Bool) (lk : Option Nat) (l : List (Nat × Nat)),
        (∀ p ∈ l, p.2 ≤ IDLE_THRESHOLD_SEC) → debounceRun wi lk l ≤ 1) := by
  refine ⟨?_, ?_, ?_, ?_⟩
  · intro wi lk key idle h
    unfold debounce
    rw [if_pos (by omega)]
  · intro lk key idle h hne
    unfold debounce
    rw [if_neg (by omega), if_pos rfl, if_pos (by simpa using hne)]
  · intro key idle h
    unfold debounce
    rw [if_neg (by omega), if_pos rfl, if_neg (by simp)]
  · intro wi lk l h
    cases l with
    | nil => simp [debounceRun]
    | cons p rest =>
      have hp := h p (List.mem_cons_self p rest)
      unfold debounceRun
      cases wi with
      | false =>
        rw [debounce_not_idle_no_resume lk p.1 p.2 hp]
        simpa using Nat.le_of_eq (debounceRun_false rest lk
          (fun q hq => h q (List.mem_cons_of_mem p hq))) |>.trans (by omega)
      | true =>
        have hwi' : (debounce true lk p.1 p.2).1 = false := by
          unfold debounce
          rw [if_neg (by omega)]
          by_cases hk : lk != some p.1 <;> simp [hk]
        have hrest : debounceRun (debounce true lk p.1 p.2).1
            (debounce true lk p.1 p.2).2.1 rest = 0 := by
          rw [hwi']
          exact debounceRun_false rest _ (fun q hq => h q (List.mem_cons_of_mem p hq))
        show (if (debounce true lk p.1 p.2).2.2 = true then 1 else 0)
          + debounceRun (debounce true lk p.1 p.2).1 (debounce true lk p.1 p.2).2.1 rest ≤ 1
        rw [hrest]
        by_cases hr : (debounce true lk p.1 p.2).2.2 <;> simp [hr]

/-- Witness for C5: `debounce_resume_policy` at concrete inputs - a 90-second
idle sample sets `was_idle` without firing, and a run of three active ticks
starting idle fires exactly at most one resume. -/
theorem debounce_resume_policy_witness :
    debounce false none 3 90 = (true, none, false)
    ∧ debounceRun true (some 3) [(3, 0), (4, 0), (4, 0)] ≤ 1 :=
  ⟨debounce_resume_policy.1 false none 3 90 (by decide),
    debounce_resume_policy.2.2.2 true (some 3) [(3, 0), (4, 0), (4, 0)]
      (by decide)⟩

lemma loopStep_cases (st : LoopState) (t : Tick) :
    ((loopStep st t).2 = [] ∧ (loopStep st t).1.lastKey = st.lastKey)
    ∨ ((loopStep st t).2.length ≤ 1
        ∧ (∀ a ∈ (loopStep st t).2, a.key = t.slotKey)
        ∧ (loopStep st t).1.lastKey = some t.slotKey
        ∧ st.lastKey ≠ some t.slotKey) := by
  unfold loopStep
  by_cases hw : t.inWindow
  · simp only [hw, Bool.not_true, Bool.false_eq_true, if_false]
    by_cases hb : (st.lastKey != some t.slotKey && decide (t.second < 5)) = true
    · right
      have hne : st.lastKey ≠ some t.slotKey := by
        have := (Bool.and_eq_true _ _).mp hb
        simpa using this.1
      simp only [hb, if_true]
      by_cases hidle : t.idle > IDLE_THRESHOLD_SEC
      · simp [debounce, hidle, hne]
      · cases hwi : st.was_idle <;> simp [debounce, hidle, hwi, hne]
    · simp only [hb, if_false]
      rw [Bool.not_eq_true] at hb
      by_cases hidle : t.idle > IDLE_THRESHOLD_SEC
      · left
        simp [debounce, hidle, hb]
      · cases hwi : st.was_idle
        · left
          simp [debounce, hidle, hwi, hb]
        · by_cases hk : st.lastKey != some t.slotKey
          · right
            refine ⟨?_, ?_, ?_, by simpa using hk⟩ <;>
              simp [debounce, hidle, hwi, hk, hb]
          · left
            rw [Bool.not_eq_true] at hk
            simp [debounce, hidle, hwi, hk, hb]
  · left
    simp [hw]

lemma loopStep_boundary_second (st : LoopState) (t : Tick) (a : Attempt)
    (ha : a ∈ (loopStep st t).2) (hk : a.kind = .boundary) : t.second < 5 := by
  unfold loopStep at ha
  by_cases hw : t.inWindow
  · simp only [hw, Bool.not_true, Bool.false_eq_true, if_false] at ha
    by_cases hb : (st.lastKey != some t.slotKey && decide (t.second < 5)) = true
    · have := (Bool.and_eq_true _ _).mp hb
      simpa using this.2
    · rw [Bool.not_eq_true] at hb
      simp only [hb, Bool.false_eq_true, if_false, List.nil_append] at ha
      split at ha
      · simp only [List.mem_singleton] at ha
        rw [ha] at hk
        simp at hk
      · simp at ha
  · simp [hw] at ha

lemma runLoop_countKey_notmem (k : Nat) (ts : List Tick) (st : LoopState)
    (h : ∀ t ∈ ts, t.slotKey ≠ k) :
    countKey k (runLoop st ts).2 = 0 := by
  induction ts generalizing st with
  | nil => rfl
  | cons t ts ih =>
    unfold runLoop countKey
    rw [List.countP_append]
    have h1 : ((loopStep st t).2.countP (fun a => a.key == k)) = 0 := by
      rw [List.countP_eq_zero]
      intro a ha
      rcases loopStep_cases st t with ⟨he, _⟩ | ⟨_, hkeys, _, _⟩
      · rw [he] at ha
        simp at ha
      · have := hkeys a ha
        simp [this]
        exact h t (List.mem_cons_self t ts)
    rw [h1]
    simpa [countKey] using ih (loopStep st t).1 (fun u hu => h u (List.mem_cons_of_mem t hu))

lemma runLoop_countKey_after (k : Nat) (ts : List Tick) (st : LoopState)
    (hlk : st.lastKey = some k)
    (hmono : ts.Pairwise (fun a b => a.slotKey ≤ b.slotKey))
    (hge : ∀ t ∈ ts, k ≤ t.slotKey) :
    countKey k (runLoop st ts).2 = 0 := by
  induction ts generalizing st with
  | nil => rfl
  | cons t ts ih =>
    unfold runLoop countKey
    rw [List.countP_append]
    rcases loopStep_cases st t with ⟨he, hsame⟩ | ⟨hlen, hkeys, hnew, hold⟩
    · rw [he]
      simp only [List.countP_nil, Nat.zero_add]
      exact ih (loopStep st t).1 (hsame.trans hlk)
        (List.Pairwise.of_cons hmono)
        (fun u hu => hge u (List.mem_cons_of_mem t hu))
    · have hkne : t.slotKey ≠ k := by
        intro hcontra
        rw [hcontra] at hold
        exact hold hlk
      have h1 : ((loopStep st t).2.countP (fun a => a.key == k)) = 0 := by
        rw [List.countP_eq_zero]
        intro a ha
        simp [hkeys a ha, hkne]
      rw [h1]
      simp only [Nat.zero_add]
      have hgt : k < t.slotKey :=
        lt_of_le_of_ne (hge t (List.mem_cons_self t ts)) (Ne.symm hkne)
      exact runLoop_countKey_notmem k ts (loopStep st t).1
        (fun u hu => by
          have := (List.pairwise_cons.mp hmono).1 u hu
          omega)

lemma runLoop_countKey_le_one (k : Nat) (ts : List Tick) (st : LoopState)
    (hmono : ts.Pairwise (fun a b => a.slotKey ≤ b.slotKey))
    (hlk : st.lastKey = some k → ∀ t ∈ ts, k ≤ t.slotKey) :
    countKey k (runLoop st ts).2 ≤ 1 := by
  induction ts generalizing st with
  | nil => exact Nat.zero_le 1
  | cons t ts ih =>
    by_cases hk0 : st.lastKey = some k
    · rw [runLoop_countKey_after k (t :: ts) st hk0 hmono (hlk hk0)]
      exact Nat.zero_le 1
    · unfold runLoop countKey
      rw [List.countP_append]
      rcases loopStep_cases st t with ⟨he, hsame⟩ | ⟨hlen, hkeys, hnew, hold⟩
      · rw [he]
        simp only [List.countP_nil, Nat.zero_add]
        refine ih (loopStep st t).1 (List.Pairwise.of_cons hmono) ?_
        intro hc
        exact absurd (hsame ▸ hc) hk0
      · by_cases hkey : t.slotKey = k
        · have h1 : ((loopStep st t).2.countP (fun a => a.key == k)) ≤ 1 :=
            le_trans (List.countP_le_length _) hlen
          have h2 : countKey k (runLoop (loopStep st t).1 ts).2 = 0 := by
            refine runLoop_countKey_after k ts (loopStep st t).1
              (by rw [hnew, hkey]) (List.Pairwise.of_cons hmono) ?_
            intro u hu
            have := (List.pairwise_cons.mp hmono).1 u hu
            omega
          rw [countKey] at h2
          omega
        · have h1 : ((loopStep st t).2.countP (fun a => a.key == k)) = 0 := by
            rw [List.countP_eq_zero]
            intro a ha
            simp [hkeys a ha, hkey]
          rw [h1]
          simp only [Nat.zero_add]
          refine ih (loopStep st t).1 (List.Pairwise.of_cons hmono) ?_
          intro hc
          rw [hnew] at hc
          exact absurd (Option.some.inj hc) hkey

/-- Counterexample to claim C4: a slot visited only after its first five
seconds (a single in-window tick of slot key 0 at second 7, user active)
receives no boundary prompt attempt at all, so it is not the case that
exactly one boundary prompt attempt occurs for every slot. -/
theorem boundary_trigger_can_miss_a_slot :
    (Tick.mk true 0 7 0).inWindow = true
    ∧ (runLoop ⟨none, false⟩ [⟨true, 0, 7, 0⟩]).2 = [] := by
  decide

/-- Claim C4 as amended: over any monotone trace of poll ticks (slot keys
nondecreasing, as wall-clock slot keys are), the scheduler loop started from
its initial state issues at most one prompt attempt per slot in total:
`last_prompted_key` is set on any attempt, making the boundary trigger and
the resume trigger mutually exclusive candidates for the same slot; a single
tick never issues more than one attempt; any attempt records the slot key as
prompted; and a boundary attempt can only fire within the first five seconds
of the slot.  (Exactly-one is not guaranteed: a slot may get no attempt at
all, as `boundary_trigger_can_miss_a_slot` shows.) -/
theorem scheduler_at_most_one_attempt_per_slot (ts : List Tick)
    (hmono : ts.Pairwise (fun a b => a.slotKey ≤ b.slotKey)) :
    (∀ k, countKey k (runLoop ⟨none, false⟩ ts).2 ≤ 1)
    ∧ (∀ (st : LoopState) (t : Tick), (loopStep st t).2.length ≤ 1)
    ∧ (∀ (st : LoopState) (t : Tick), (loopStep st t).2 ≠ [] →
        (loopStep st t).1.lastKey = some t.slotKey)
    ∧ (∀ (st : LoopState) (t : Tick) (a : Attempt), a ∈ (loopStep st t).2 →
        a.kind = .boundary → t.second < 5) := by
  refine ⟨?_, ?_, ?_, loopStep_boundary_second⟩
  · intro k
    exact runLoop_countKey_le_one k ts ⟨none, false⟩ hmono (fun hc => by simp at hc)
  · intro st t
    rcases loopStep_cases st t with ⟨he, _⟩ | ⟨hlen, _, _, _⟩
    · rw [he]
      exact Nat.zero_le 1
    · exact hlen
  · intro st t hne
    rcases loopStep_cases st t with ⟨he, _⟩ | ⟨_, _, hnew, _⟩
    · exact absurd he hne
    · exact hnew

/-- Witness for C4 (amended): `scheduler_at_most_one_attempt_per_slot` on a
concrete three-tick monotone trace (boundary fires for slot 5, a later tick
in slot 5 cannot fire again, slot 6 boundary fires once). -/
theorem scheduler_at_most_one_attempt_per_slot_witness :
    countKey 5 (runLoop ⟨none, false⟩
      [⟨true, 5, 1, 0⟩, ⟨true, 5, 2, 0⟩, ⟨true, 6, 1, 0⟩]).2 ≤ 1 :=
  (scheduler_at_most_one_attempt_per_slot
    [⟨true, 5, 1, 0⟩, ⟨true, 5, 2, 0⟩, ⟨true, 6, 1, 0⟩] (by decide)).1 5

/-! ### Configuration loading -/

/-- JSON value as parsed by `json.loads`. -/
inductive JVal where
  | jnull
  | jbool (b : Bool)
  | jnum (n : Int)
  | jstr (s : String)
  | jobj (fields : List (String × JVal))
  | jarr (elems : List JVal)

/-- Lookup in a JSON object (Python dict indexing, first matching key). -/
def jlookup (l : List (String × JVal)) (k : String) : Option JVal :=
  match l with
  | [] => none
  | kv :: rest => if kv.1 = k then some kv.2 else jlookup rest k

/-- Python dict assignment `d[k] = v`: replace the existing binding or append. -/
def jset (l : List (String × JVal)) (k : String) (v : JVal) : List (String × JVal) :=
  match l with
  | [] => [(k, v)]
  | kv :: rest => if kv.1 = k then (k, v) :: rest else kv :: jset rest k v

/-- Python truthiness of a parsed JSON value (`if cfg:`). -/
def jtruthy : JVal → Bool
  | .jnull => false
  | .jbool b => b
  | .jnum n => n != 0
  | .jstr s => s != ""
  | .jobj l => !l.isEmpty
  | .jarr l => !l.isEmpty

/-- The `DEFAULTS` dict of `toe_popper.py`. -/
def DEFAULTS : List (String × JVal) :=
  [("work_window", .jobj [("start", .jstr "09:00"), ("end", .jstr "17:00"),
      ("slot_minutes", .jnum 30)]),
   ("prompt_rules", .jobj [("focus_title", .jstr "Focus Sprint"),
      ("focus_match", .jstr "equals_ci"), ("skip_if_any_event", .jbool true)]),
   ("ui", .jobj [("remember_last", .jbool true), ("snooze_minutes", .jnum 10)]),
   ("outlook", .jobj [("tz_id", .jnull)]),
   ("categories", .jobj [])]

/-- Top-level merge loop of `_merge_defaults`: deep-copy `DEFAULTS`, then
assign each override key wholesale (`cfg[k] = v`). -/
def mergeTop (over : List (String × JVal)) : List (String × JVal) :=
  over.foldl (fun c kv => jset c kv.1 kv.2) DEFAULTS

/-- The `cfg.setdefault("categories", {})` line. -/
def setdefaultCategories (cfg : List (String × JVal)) : List (String × JVal) :=
  if (jlookup cfg "categories").isSome then cfg
  else jset cfg "categories" (.jobj [])

/-- The `cfg.setdefault("outlook", {}).setdefault("tz_id", None)` line.
Returns `none` on the path where the Python code raises (a present non-object
`outlook` value, on which the second `setdefault` would fail). -/
def setdefaultOutlookTz (cfg : List (String × JVal)) : Option (List (String × JVal)) :=
  match jlookup cfg "outlook" with
  | none => some (jset cfg "outlook" (.jobj [("tz_id", .jnull)]))
  | some (.jobj o) =>
    if (jlookup o "tz_id").isSome then some cfg
    else some (jset cfg "outlook" (.jobj (jset o "tz_id" .jnull)))
  | some _ => none

/-- Embedding of `_merge_defaults`: wholesale top-level assignment of each
override key over a copy of `DEFAULTS`, then the two `setdefault` fixups. -/
def _merge_defaults (over : List (String × JVal)) : Option (List (String × JVal)) :=
  setdefaultOutlookTz (setdefaultCategories (mergeTop over))

/-- Merging a parsed config file: `_merge_defaults(cfg)` requires the JSON
root to be an object (`over.items()` raises otherwise). -/
def asMergedConfig : JVal → Option (List (String × JVal))
  | .jobj l => _merge_defaults l
  | _ => none

/-- Embedding of `load_config` over the parse results of its three candidate
sources (`--config` path, script directory, current directory); `none` stands
for a missing or unparseable file, which is skipped, as is any parsed value
that is falsy; with no usable source the defaults are merged with nothing. -/
def load_config_from (sources : List (Option JVal)) : Option (List (String × JVal)) :=
  match sources with
  | [] => _merge_defaults []
  | s :: rest =>
    match s with
    | some v => if jtruthy v then asMergedConfig v else load_config_from rest
    | none => load_config_from rest

/-- The three-source `load_config` of the popper. -/
def load_config (cli here cwd : Option JVal) : Option (List (String × JVal)) :=
  load_config_from [cli, here, cwd]

/-- Nested config access `cfg[k1][k2]` (with `none` when the path is absent
or the intermediate value is not an object). -/
def nestedLookup (cfg : List (String × JVal)) (k1 k2 : String) : Option JVal :=
  match jlookup cfg k1 with
  | some (.jobj inner) => jlookup inner k2
  | _ => none

lemma jlookup_jset (l : List (String × JVal)) (k k2 : String) (v : JVal) :
    jlookup (jset l k v) k2 = if k2 = k then some v else jlookup l k2 := by
  induction l with
  | nil =>
    rcases eq_or_ne k2 k with h | h
    · subst h
      simp [jset, jlookup]
    · simp [jset, jlookup, h, Ne.symm h]
  | cons kv rest ih =>
    rcases eq_or_ne kv.1 k with h | h <;> rcases eq_or_ne k2 k with h2 | h2
    · subst h2
      simp [jset, jlookup, h]
    · simp [jset, jlookup, h, h2, Ne.symm h2]
    · subst h2
      simp [jset, jlookup, h, ih]
    · simp [jset, jlookup, h, h2, Ne.symm h2, ih]

lemma jlookup_mergeTop_isSome (over : List (String × JVal)) (k : String)
    (h : (jlookup DEFAULTS k).isSome = true) :
    (jlookup (mergeTop over) k).isSome = true := by
  unfold mergeTop
  suffices hgen : ∀ acc : List (String × JVal), (jlookup acc k).isSome = true →
      (jlookup (over.foldl (fun c kv => jset c kv.1 kv.2) acc) k).isSome = true from
    hgen DEFAULTS h
  induction over with
  | nil => exact fun acc hacc => hacc
  | cons kv rest ih =>
    intro acc hacc
    rw [List.foldl_cons]
    refine ih (jset acc kv.1 kv.2) ?_
    rw [jlookup_jset]
    by_cases hk : k = kv.1
    · simp [hk]
    · simpa [hk] using hacc

lemma jlookup_setdefaultCategories_isSome (cfg : List (String × JVal)) (k : String)
    (h : (jlookup cfg k).isSome = true) :
    (jlookup (setdefaultCategories cfg) k).isSome = true := by
  unfold setdefaultCategories
  split
  · exact h
  · rw [jlookup_jset]
    by_cases hk : k = "categories"
    · simp [hk]
    · simpa [hk] using h

lemma jlookup_setdefaultOutlookTz_isSome (cfg cfg2 : List (String × JVal))
    (k : String) (hm : setdefaultOutlookTz cfg = some cfg2)
    (h : (jlookup cfg k).isSome = true) :
    (jlookup cfg2 k).isSome = true := by
  unfold setdefaultOutlookTz at hm
  split at hm
  · rw [(Option.some.inj hm).symm, jlookup_jset]
    by_cases hk : k = "outlook"
    · simp [hk]
    · simpa [hk] using h
  · split at hm
    · rw [(Option.some.inj hm).symm]
      exact h
    · rw [(Option.some.inj hm).symm, jlookup_jset]
      by_cases hk : k = "outlook"
      · simp [hk]
      · simpa [hk] using h
  · exact absurd hm (by simp)

lemma jlookup_isSome_of_merge (over : List (String × JVal))
    (cfg : List (String × JVal)) (hm : _merge_defaults over = some cfg)
    (k : String) (hd : (jlookup DEFAULTS k).isSome = true) :
    (jlookup cfg k).isSome = true := by
  unfold _merge_defaults at hm
  exact jlookup_setdefaultOutlookTz_isSome _ cfg k hm
    (jlookup_setdefaultCategories_isSome _ k (jlookup_mergeTop_isSome over k hd))

/-- Counterexample to claim C9: overriding the `work_window` section with an
object that only sets `start` replaces the section wholesale, so the merged
config no longer supplies the documented default `slot_minutes` (30, as the
defaults do supply); additionally, a well-formed config file whose JSON root
is not an object makes loading fail rather than fall back. -/
theorem merge_defaults_drops_nested_keys :
    (_merge_defaults [("work_window", .jobj [("start", .jstr "08:00")])]).map
        (fun cfg => nestedLookup cfg "work_window" "slot_minutes") = some none
    ∧ nestedLookup DEFAULTS "work_window" "slot_minutes" = some (.jnum 30)
    ∧ load_config (some (.jarr [.jnum 1])) none none = none :=
  ⟨rfl, rfl, rfl⟩

/-- Claim C9 as amended: configuration loading falls back per top level, not
per nested key - for every override object that merges successfully, every
documented top-level section is present in the result (missing top-level keys
fall back to their defaults), and an absent or malformed (unparseable) config
file yields exactly the full default configuration; but a present section
override replaces the section wholesale, so nested keys missing inside it are
not defaulted (`outlook.tz_id` and top-level `categories` being the only
specially re-defaulted entries), and a parseable config whose root is not an
object raises instead of falling back. -/
theorem load_config_fallback (over : List (String × JVal)) :
    (∀ cfg, _merge_defaults over = some cfg →
      ∀ k, (jlookup DEFAULTS k).isSome = true → (jlookup cfg k).isSome = true)
    ∧ load_config none none none = some DEFAULTS
    ∧ _merge_defaults [] = some DEFAULTS :=
  ⟨fun cfg hm k hd => jlookup_isSome_of_merge over cfg hm k hd, rfl, rfl⟩

/-- Witness for C9 (amended): `load_config_fallback` applied to the override
that replaces only the `ui` section - the `work_window` section is still
present in the merged result. -/
theorem load_config_fallback_witness :
    (jlookup ((_merge_defaults [("ui", JVal.jnull)]).getD []) "work_window").isSome
      = true :=
  (load_config_fallback [("ui", JVal.jnull)]).1
    ((_merge_defaults [("ui", JVal.jnull)]).getD []) rfl "work_window" rfl

end TOE
